import Mathlib

/-!
Verification of the authorization and access-filtering engine of the
project-agent repository, as a shallow embedding in Lean 4.

The embedding follows the Python source:
* packages/shared/schemas/rbac.py      (roles, permissions, profiles)
* packages/shared/schemas/tenant.py    (tenant context shape)
* packages/shared/clients/rbac.py      (directory lookups)
* packages/shared/clients/auth.py      (context resolution, document filtering,
                                        single-document check, client access guard)
* packages/agent_core/planner.py       (retrieval-then-compose pipeline)
* services/api/admin/app.py            (access-request workflow)

Stores (Firestore collections) are modelled as in-memory association lists,
and the handful of Python dynamic-typing effects that matter (a string
compared against a pydantic model object, dict-style access on a pydantic
model raising AttributeError) are modelled explicitly where they occur.
-/

namespace ProjectAgent

/-- UserRole enum from packages/shared/schemas/rbac.py. -/
inductive UserRole
  | super_admin
  | account_admin
  | project_admin
  | end_user
deriving DecidableEq, Repr

/-- PermissionType enum from packages/shared/schemas/rbac.py. -/
inductive PermissionType
  | manage_clients
  | manage_users
  | manage_system
  | view_client
  | manage_projects
  | view_project
  | manage_documents
  | upload_documents
  | approve_documents
  | delete_documents
  | view_documents
  | chat_with_documents
  | download_documents
deriving DecidableEq, Repr

/-- ROLE_PERMISSIONS mapping from packages/shared/schemas/rbac.py (lines 146-185). -/
def ROLE_PERMISSIONS : UserRole → List PermissionType
  | .super_admin =>
      [.manage_clients, .manage_users, .manage_system, .view_client,
       .manage_projects, .view_project, .manage_documents, .upload_documents,
       .approve_documents, .delete_documents, .view_documents,
       .chat_with_documents, .download_documents]
  | .account_admin =>
      [.view_client, .manage_users, .manage_projects, .view_project,
       .view_documents, .chat_with_documents]
  | .project_admin =>
      [.view_project, .manage_documents, .upload_documents,
       .approve_documents, .delete_documents, .view_documents,
       .chat_with_documents, .download_documents]
  | .end_user =>
      [.view_project, .view_documents, .chat_with_documents]

/-- get_role_permissions from rbac.py: ROLE_PERMISSIONS.get(role, []); the
mapping is total over the enum, so the default branch never fires. -/
def get_role_permissions (role : UserRole) : List PermissionType :=
  ROLE_PERMISSIONS role

/-- Client record (pydantic Client model, visibility-relevant fields). -/
structure ClientRec where
  id : String
  cname : String
  cstatus : String
deriving DecidableEq, Repr

/-- Project record (pydantic Project model, visibility-relevant fields). -/
structure ProjectRec where
  id : String
  client_id : String
  pname : String
deriving DecidableEq, Repr

/-- A Python runtime value as it can appear inside the client_ids and
project_ids lists of a resolved user-context dict.  auth.get_user_context
stores the return value of RBACClient.get_user_clients there, which is a
list of pydantic Client model objects, not id strings; membership tests
such as `client_id not in context["client_ids"]` then compare a str
against a Client object, which is False in Python for every pair of a
string and a model object.  The derived decidable equality mirrors that:
values built from different constructors are never equal. -/
inductive PyVal
  | pynone
  | str (s : String)
  | clientObj (c : ClientRec)
  | projectObj (p : ProjectRec)
deriving DecidableEq, Repr

/-- UserProfile from packages/shared/schemas/rbac.py (fields the engine reads). -/
structure UserProfile where
  id : String
  email : String
  uname : String
  role : UserRole
  ustatus : String
  client_ids : List String
  project_ids : List String
deriving DecidableEq, Repr

/-- The tenant directory backing RBACClient: the users, clients and projects
Firestore collections. `fail` models an exception raised by any of the
underlying lookups (Firestore connectivity failure); auth.get_user_context
wraps all of its lookups in one try/except. -/
structure Directory where
  users : List UserProfile
  clients : List ClientRec
  projects : List ProjectRec
  fail : Bool
deriving Repr

/-- RBACClient.get_user_by_email: first user whose email matches (limit(1)). -/
def get_user_by_email (dir : Directory) (email : String) : Option UserProfile :=
  dir.users.find? (fun u => u.email == email)

/-- RBACClient.get_user: lookup by document id. -/
def get_user (dir : Directory) (user_id : String) : Option UserProfile :=
  dir.users.find? (fun u => u.id == user_id)

/-- RBACClient.get_client. -/
def get_client (dir : Directory) (client_id : String) : Option ClientRec :=
  dir.clients.find? (fun c => c.id == client_id)

/-- RBACClient.get_project. -/
def get_project (dir : Directory) (project_id : String) : Option ProjectRec :=
  dir.projects.find? (fun p => p.id == project_id)

/-- RBACClient.get_user_clients (rbac.py lines 356-373): returns a list of
Client model objects (not id strings) - for a super admin all clients,
otherwise the found records among the ids in the profile. -/
def get_user_clients (dir : Directory) (user_id : String) : List PyVal :=
  match get_user dir user_id with
  | none => []
  | some u =>
    if u.role == UserRole.super_admin then
      dir.clients.map PyVal.clientObj
    else
      u.client_ids.filterMap (fun cid => (get_client dir cid).map PyVal.clientObj)

/-- RBACClient.get_user_projects (rbac.py lines 337-354): list of Project
model objects, analogous to get_user_clients. -/
def get_user_projects (dir : Directory) (user_id : String) : List PyVal :=
  match get_user dir user_id with
  | none => []
  | some u =>
    if u.role == UserRole.super_admin then
      dir.projects.map PyVal.projectObj
    else
      u.project_ids.filterMap (fun pid => (get_project dir pid).map PyVal.projectObj)

/-- The context dict built by auth.get_user_context.  Optional fields are
keys that are present only for users found in the directory. -/
structure UserContext where
  user_id : Option String := none
  email : String
  uname : Option String := none
  role : UserRole
  permissions : List PermissionType
  client_ids : List PyVal
  project_ids : List PyVal
  ustatus : Option String := none
deriving DecidableEq, Repr

/-- The fail-closed minimal context of auth.get_user_context (lines 130-136
and 159-165): role end_user, empty permission, client and project lists. -/
def minimal_context (user_email : String) : UserContext :=
  { email := user_email
    role := UserRole.end_user
    permissions := []
    client_ids := []
    project_ids := [] }

/-- auth.get_user_context (auth.py lines 113-165).  A missing profile and a
raised lookup error both produce the minimal context; otherwise the context
is composed from the role permissions and the directory assignments. -/
def get_user_context (dir : Directory) (user_email : String) : UserContext :=
  if dir.fail then minimal_context user_email
  else
    match get_user_by_email dir user_email with
    | none => minimal_context user_email
    | some u =>
      { user_id := some u.id
        email := u.email
        uname := some u.uname
        role := u.role
        permissions := get_role_permissions u.role
        client_ids := get_user_clients dir u.id
        project_ids := get_user_projects dir u.id
        ustatus := some u.ustatus }

/-- A document dict as handed to filter_documents_by_access: the values of
doc.get("project_id"), doc.get("client_id") and doc.get("visibility"),
with none standing for an absent key or a stored None. -/
structure DocDict where
  doc_id : String
  project_id : Option String := none
  client_id : Option String := none
  visibility : Option String := none
deriving DecidableEq, Repr

/-- Python membership of doc.get(...) (None or a str) in a context id list;
None == None is True in Python, and a str equals only the same str. -/
def pyMem (v : Option String) (l : List PyVal) : Bool :=
  match v with
  | none => l.contains PyVal.pynone
  | some s => l.contains (PyVal.str s)

/-- The document loop of auth.filter_documents_by_access (lines 384-396):
append when the project id is accessible, otherwise append when the client
id is accessible, otherwise drop.  Python set membership is modelled as
list membership. -/
def filter_documents_loop (pids cids : List PyVal) : List DocDict → List DocDict
  | [] => []
  | d :: rest =>
    if pyMem d.project_id pids then d :: filter_documents_loop pids cids rest
    else if pyMem d.client_id cids then d :: filter_documents_loop pids cids rest
    else filter_documents_loop pids cids rest

/-- auth.filter_documents_by_access after context resolution (lines 374-396):
super admins get the input back unchanged, everyone else gets the loop. -/
def filter_documents_core (ctx : UserContext) (docs : List DocDict) : List DocDict :=
  if ctx.role == UserRole.super_admin then docs
  else filter_documents_loop ctx.project_ids ctx.client_ids docs

/-- auth.filter_documents_by_access (lines 360-396), email-level entry. -/
def filter_documents_by_access (dir : Directory) (user_email : String)
    (docs : List DocDict) : List DocDict :=
  filter_documents_core (get_user_context dir user_email) docs

/-- The accessibility predicate in the words of the specification (section 4.2):
project id in scope, or project id empty and client id in scope, or public
visibility.  Written from the spec only, for comparison with
filter_documents_core. -/
def spec_accessible (ctx : UserContext) (d : DocDict) : Bool :=
  pyMem d.project_id ctx.project_ids
  || ((d.project_id == none || d.project_id == some "")
        && pyMem d.client_id ctx.client_ids)
  || (d.visibility == some "public")

/-- Stored document metadata (pydantic DocumentMetadata, the fields read by
the engine).  This is a model object, not a dict. -/
structure DocumentMeta where
  id : String
  title : String
  project_id : Option String := none
  client_id : Option String := none
  visibility : String := "project"
deriving DecidableEq, Repr

/-- The dict view of a stored document, as a caller would pass it to
filter_documents_by_access. -/
def DocumentMeta.toDict (d : DocumentMeta) : DocDict :=
  { doc_id := d.id
    project_id := d.project_id
    client_id := d.client_id
    visibility := some d.visibility }

/-- auth.check_document_access after context resolution (auth.py lines
416-439).  For a super admin the check short-circuits to true.  Otherwise
the code fetches the document through FirestoreClient.get_document, which
returns a pydantic DocumentMetadata object (or None); a missing document
yields False.  When the document exists, the code evaluates
doc.get("project_id") - but DocumentMetadata is a pydantic model with no
get method, so this raises AttributeError, the bare except swallows it,
and the function returns False.  The found branch therefore returns False
unconditionally. -/
def check_document_access_ctx (ctx : UserContext) (store : List DocumentMeta)
    (doc_id : String) : Bool :=
  if ctx.role == UserRole.super_admin then true
  else
    match store.find? (fun d => d.id == doc_id) with
    | none => false
    | some _ => false

/-- auth.check_document_access (lines 399-439), email-level entry. -/
def check_document_access (dir : Directory) (store : List DocumentMeta)
    (user_email : String) (doc_id : String) : Bool :=
  check_document_access_ctx (get_user_context dir user_email) store doc_id

/-- An HTTP error raised by a handler (HTTPException status code and detail). -/
structure HError where
  code : Nat
  detail : String
deriving DecidableEq, Repr

/-- auth.require_client_access after authentication (auth.py lines 272-304):
resolve the context; super admins pass; a missing path parameter is a 400;
otherwise the client id must be a member of context["client_ids"] or the
handler raises 403. -/
def require_client_access_core (dir : Directory) (user_email : String)
    (client_id : Option String) : Except HError UserContext :=
  let ctx := get_user_context dir user_email
  if ctx.role == UserRole.super_admin then .ok ctx
  else
    match client_id with
    | none => .error { code := 400, detail := "Client ID required in path parameter: client_id" }
    | some cid =>
      if !(ctx.client_ids.contains (PyVal.str cid)) then
        .error { code := 403, detail := "Access denied to client: " ++ cid }
      else .ok ctx

/-- The loop of filter_documents_by_access is List.filter with the
disjunction of the project and client membership tests. -/
theorem filter_documents_loop_eq_filter (pids cids : List PyVal) (docs : List DocDict) :
    filter_documents_loop pids cids docs
      = docs.filter (fun d => pyMem d.project_id pids || pyMem d.client_id cids) := by
  induction docs with
  | nil => rfl
  | cons d rest ih =>
    cases hp : pyMem d.project_id pids <;> cases hc : pyMem d.client_id cids <;>
      simp [filter_documents_loop, List.filter, hp, hc, ih]

/-- C1 (amended): for every context whose role is not super admin,
filter_documents_by_access returns exactly the input documents whose
project_id is in ctx.project_ids or whose client_id is in ctx.client_ids -
the client test is not restricted to documents with an empty project_id and
no visibility value is consulted - and the output is a sublist of the input
(order preserved). -/
theorem c1_filter_characterization (ctx : UserContext)
    (h : ctx.role ≠ UserRole.super_admin) (docs : List DocDict) :
    filter_documents_core ctx docs
      = docs.filter
          (fun d => pyMem d.project_id ctx.project_ids || pyMem d.client_id ctx.client_ids)
    ∧ (filter_documents_core ctx docs).Sublist docs := by
  have hb : (ctx.role == UserRole.super_admin) = false := by
    simpa using h
  refine ⟨?_, ?_⟩
  · simp [filter_documents_core, hb, filter_documents_loop_eq_filter]
  · simp only [filter_documents_core, hb, Bool.false_eq_true, if_false,
      filter_documents_loop_eq_filter]
    exact List.filter_sublist docs

/-- Witness for C1: the characterization applied to a concrete end-user
context and a two-document list. -/
theorem c1_filter_characterization_witness :
    filter_documents_core
        { email := "u@x", role := .end_user, permissions := [],
          client_ids := [PyVal.str "C1"], project_ids := [PyVal.str "P1"] }
        [{ doc_id := "a", project_id := some "P1" }, { doc_id := "b", project_id := some "P2" }]
      = [{ doc_id := "a", project_id := some "P1" },
         { doc_id := "b", project_id := some "P2" }].filter
          (fun d => pyMem d.project_id [PyVal.str "P1"] || pyMem d.client_id [PyVal.str "C1"])
    ∧ (filter_documents_core
        { email := "u@x", role := .end_user, permissions := [],
          client_ids := [PyVal.str "C1"], project_ids := [PyVal.str "P1"] }
        [{ doc_id := "a", project_id := some "P1" },
         { doc_id := "b", project_id := some "P2" }]).Sublist
        [{ doc_id := "a", project_id := some "P1" }, { doc_id := "b", project_id := some "P2" }] :=
  c1_filter_characterization
    { email := "u@x", role := .end_user, permissions := [],
      client_ids := [PyVal.str "C1"], project_ids := [PyVal.str "P1"] }
    (by decide)
    [{ doc_id := "a", project_id := some "P1" }, { doc_id := "b", project_id := some "P2" }]

/-- Counterexample to C1 as stated: with client_ids = [C1] and empty
project_ids, a document with the non-empty project_id P2 and client_id C1
is returned by the code although the spec predicate rejects it (the spec
restricts the client clause to documents with an empty project_id), and a
public-visibility document with unrelated ids is dropped by the code
although the spec predicate accepts it. -/
theorem c1_spec_predicate_counterexample :
    filter_documents_core
        { email := "u@x", role := .end_user, permissions := [],
          client_ids := [PyVal.str "C1"], project_ids := [] }
        [{ doc_id := "b", project_id := some "P2", client_id := some "C1",
           visibility := some "project" }]
      = [{ doc_id := "b", project_id := some "P2", client_id := some "C1",
           visibility := some "project" }]
    ∧ spec_accessible
        { email := "u@x", role := .end_user, permissions := [],
          client_ids := [PyVal.str "C1"], project_ids := [] }
        { doc_id := "b", project_id := some "P2", client_id := some "C1",
          visibility := some "project" } = false
    ∧ filter_documents_core
        { email := "u@x", role := .end_user, permissions := [],
          client_ids := [PyVal.str "C1"], project_ids := [] }
        [{ doc_id := "p", project_id := some "P9", client_id := some "C9",
           visibility := some "public" }]
      = []
    ∧ spec_accessible
        { email := "u@x", role := .end_user, permissions := [],
          client_ids := [PyVal.str "C1"], project_ids := [] }
        { doc_id := "p", project_id := some "P9", client_id := some "C9",
          visibility := some "public" } = true := by
  refine ⟨by decide, by decide, by decide, by decide⟩

/-- C9: for a super-admin context, filter_documents_by_access returns the
input list unchanged, whatever the list. -/
theorem c9_superadmin_filter_identity (ctx : UserContext)
    (h : ctx.role = UserRole.super_admin) (docs : List DocDict) :
    filter_documents_core ctx docs = docs := by
  simp [filter_documents_core, h]

/-- Witness for C9: a concrete super-admin context on a non-empty and on an
empty input list. -/
theorem c9_superadmin_filter_identity_witness :
    filter_documents_core
        { email := "s@x", role := .super_admin, permissions := [],
          client_ids := [], project_ids := [] }
        [{ doc_id := "a", project_id := some "P1" }] = [{ doc_id := "a", project_id := some "P1" }]
    ∧ filter_documents_core
        { email := "s@x", role := .super_admin, permissions := [],
          client_ids := [], project_ids := [] } [] = [] :=
  ⟨c9_superadmin_filter_identity _ rfl _, c9_superadmin_filter_identity _ rfl _⟩

/-- C3 (code bug): for an end-user context with access to project P1 and a
stored document d1 assigned to P1, the single-document check returns false
(the found branch of auth.check_document_access evaluates doc.get on a
pydantic DocumentMetadata, which raises AttributeError and is swallowed
into False by the bare except) while filter_documents_by_access on [d1]
keeps the document - the two paths are not equivalent, contradicting the
required invariant. -/
theorem c3_check_vs_filter_divergence :
    check_document_access_ctx
        { email := "u@x", role := .end_user, permissions := [],
          client_ids := [], project_ids := [PyVal.str "P1"] }
        [{ id := "d1", title := "D", project_id := some "P1" }] "d1" = false
    ∧ filter_documents_core
        { email := "u@x", role := .end_user, permissions := [],
          client_ids := [], project_ids := [PyVal.str "P1"] }
        [DocumentMeta.toDict { id := "d1", title := "D", project_id := some "P1" }]
      = [DocumentMeta.toDict { id := "d1", title := "D", project_id := some "P1" }] := by
  refine ⟨by decide, by decide⟩

/-- C4: when the profile lookup fails (raised error) or finds no user for
the email, context resolution returns the minimal fail-closed context:
role end_user with empty permission, client and project lists, and no
error is propagated. -/
theorem c4_fail_closed_resolution (dir : Directory) (email : String)
    (h : dir.fail = true ∨ get_user_by_email dir email = none) :
    get_user_context dir email = minimal_context email := by
  rcases h with h | h
  · simp [get_user_context, h]
  · cases hf : dir.fail <;> simp [get_user_context, hf, h]

/-- Witness for C4: a directory with no users resolves an unknown email to
the minimal context. -/
theorem c4_fail_closed_resolution_witness :
    get_user_context { users := [], clients := [], projects := [], fail := false } "nobody@x"
      = minimal_context "nobody@x" :=
  c4_fail_closed_resolution
    { users := [], clients := [], projects := [], fail := false } "nobody@x" (Or.inr rfl)

/-- The directory of the C8 scenario: one account admin assigned to
client-A only, and the client-A record present. -/
def dirC8 : Directory :=
  { users := [{ id := "u1", email := "a@x", uname := "A", role := .account_admin,
                ustatus := "active", client_ids := ["client-A"], project_ids := [] }],
    clients := [{ id := "client-A", cname := "Client A", cstatus := "active" }],
    projects := [],
    fail := false }

/-- C8 (code bug): for an account admin assigned to client-A only,
require_client_access on client-B is rejected with a 403 as the claim
says, but the identical call on client-A is also rejected with a 403:
get_user_context stores pydantic Client objects (from
RBACClient.get_user_clients) in context["client_ids"], so the string
membership test in require_client_access never succeeds. -/
theorem c8_client_access_denied_for_assigned_client :
    require_client_access_core dirC8 "a@x" (some "client-B")
      = .error { code := 403, detail := "Access denied to client: client-B" }
    ∧ require_client_access_core dirC8 "a@x" (some "client-A")
      = .error { code := 403, detail := "Access denied to client: client-A" } :=
  ⟨rfl, rfl⟩

/-- DocumentMetadata fields read by the ADK planner (pydantic model). -/
structure PlannerMeta where
  title : String
  uri : String
  project_id : Option String := none
  client_id : Option String := none
  thumbnails : List String := []
deriving DecidableEq, Repr

/-- One vector-search hit handed to the planner: metadata stored with the
vector (doc_id, chunk_index, text). -/
structure SearchResult where
  doc_id : String
  chunk_index : Nat
  text : String
deriving DecidableEq, Repr

/-- The snippet dict built by ADKPlanner.fetch_snippets. -/
structure Snippet where
  doc_id : String
  title : String
  excerpt : String
  uri : String
  page : Option Nat
  thumbnail : Option String
deriving DecidableEq, Repr

/-- Membership guarded by Python truthiness, as in
`if doc_project_id and doc_project_id in user_project_ids`:
None and the empty string are falsy. -/
def truthyMem (v : Option String) (l : List String) : Bool :=
  match v with
  | none => false
  | some s => (s != "") && l.contains s

/-- ADKPlanner._check_document_access (planner.py lines 85-118): missing
metadata denies; super_admin passes; otherwise truthy project or client id
must be among the accessible ids. -/
def planner_check_document_access (meta : Option PlannerMeta)
    (user_project_ids user_client_ids : List String) (user_role : String) : Bool :=
  match meta with
  | none => false
  | some m =>
    if user_role == "super_admin" then true
    else if truthyMem m.project_id user_project_ids then true
    else if truthyMem m.client_id user_client_ids then true
    else false

/-- The excerpt of fetch_snippets: text truncated to 200 characters with an
ellipsis when longer. -/
def excerpt_of (text : String) : String :=
  if 200 < text.length then text.take 200 ++ "..." else text

/-- ADKPlanner.fetch_snippets (planner.py lines 136-158). -/
def fetch_snippets (lookup : String → Option PlannerMeta) (doc_id : String)
    (chunk_index : Nat) (text : String) : Snippet :=
  match lookup doc_id with
  | none =>
    { doc_id := doc_id, title := "Unknown Document", excerpt := excerpt_of text,
      uri := "", page := none, thumbnail := none }
  | some m =>
    { doc_id := doc_id, title := m.title, excerpt := excerpt_of text, uri := m.uri,
      page := some (chunk_index + 1), thumbnail := m.thumbnails.head? }

/-- The snippet-gathering loop of ADKPlanner.process_query (lines 48-66):
every search result is access-checked before its snippet is fetched and
accumulated, and the loop breaks once max_results accessible snippets are
collected. -/
def gather_snippets (lookup : String → Option PlannerMeta)
    (pids cids : List String) (role : String) (max_results : Nat) :
    List SearchResult → List Snippet → List Snippet
  | [], acc => acc
  | r :: rest, acc =>
    if planner_check_document_access (lookup r.doc_id) pids cids role then
      let acc2 := acc ++ [fetch_snippets lookup r.doc_id r.chunk_index r.text]
      if max_results ≤ acc2.length then acc2
      else gather_snippets lookup pids cids role max_results rest acc2
    else gather_snippets lookup pids cids role max_results rest acc

/-- The enumeration loop of compose_answer: one numbered line per snippet,
title and excerpt truncated to 200 characters. -/
def compose_lines (i : Nat) : List Snippet → String
  | [] => ""
  | s :: rest =>
    toString i ++ ". " ++ s.title ++ " - " ++ s.excerpt.take 200 ++ "...\n"
      ++ compose_lines (i + 1) rest

/-- ADKPlanner.compose_answer (planner.py lines 120-134). -/
def compose_answer (query : String) (snippets : List Snippet) : String :=
  if snippets.isEmpty then
    "I couldn\x27t find any relevant information in the knowledge base for your query."
  else
    "Based on your query \x27" ++ query ++ "\x27, I found "
      ++ toString snippets.length ++ " relevant document(s):\n\n"
      ++ compose_lines 1 snippets

/-- The result dict of ADKPlanner.process_query. -/
structure QueryResult where
  answer : String
  snippets : List Snippet
  total_results : Nat
deriving Repr

/-- ADKPlanner.process_query (planner.py lines 15-83) with the external
collaborators passed as inputs: the vector-search hits and the metadata
store.  Snippets are gathered behind the per-document access check, the
answer is composed only from the gathered snippets. -/
def process_query (query : String) (user_project_ids user_client_ids : List String)
    (user_role : String) (max_results : Nat) (search_results : List SearchResult)
    (lookup : String → Option PlannerMeta) : QueryResult :=
  let snippets := gather_snippets lookup user_project_ids user_client_ids user_role
      max_results search_results []
  { answer := compose_answer query snippets
    snippets := snippets
    total_results := snippets.length }

/-- Every snippet produced by the gathering loop was already accumulated or
stems from a search result whose document passed the access check. -/
theorem gather_snippets_accessible (lookup : String → Option PlannerMeta)
    (pids cids : List String) (role : String) (max_results : Nat)
    (rs : List SearchResult) (acc : List Snippet) :
    ∀ s ∈ gather_snippets lookup pids cids role max_results rs acc,
      s ∈ acc ∨ ∃ r ∈ rs,
        planner_check_document_access (lookup r.doc_id) pids cids role = true
        ∧ s = fetch_snippets lookup r.doc_id r.chunk_index r.text := by
  induction rs generalizing acc with
  | nil =>
    intro s hs
    exact Or.inl hs
  | cons r rest ih =>
    intro s hs
    simp only [gather_snippets] at hs
    by_cases hchk : planner_check_document_access (lookup r.doc_id) pids cids role = true
    · rw [if_pos hchk] at hs
      have hacc2 :
          s ∈ acc ++ [fetch_snippets lookup r.doc_id r.chunk_index r.text] ∨
          ∃ q ∈ rest,
            planner_check_document_access (lookup q.doc_id) pids cids role = true
            ∧ s = fetch_snippets lookup q.doc_id q.chunk_index q.text := by
        by_cases hlen : max_results ≤ (acc ++ [fetch_snippets lookup r.doc_id r.chunk_index r.text]).length
        · rw [if_pos hlen] at hs
          exact Or.inl hs
        · rw [if_neg hlen] at hs
          exact ih _ s hs
      rcases hacc2 with hmem | ⟨q, hq, hqc, hqe⟩
      · rcases List.mem_append.mp hmem with hold | hnew
        · exact Or.inl hold
        · refine Or.inr ⟨r, List.mem_cons_self r rest, hchk, ?_⟩
          simpa using hnew
      · exact Or.inr ⟨q, List.mem_cons_of_mem r hq, hqc, hqe⟩
    · rw [if_neg hchk] at hs
      rcases ih acc s hs with hold | ⟨q, hq, hqc, hqe⟩
      · exact Or.inl hold
      · exact Or.inr ⟨q, List.mem_cons_of_mem r hq, hqc, hqe⟩

/-- C2: in process_query the access check runs per candidate before any
snippet is fetched; the composed answer equals compose_answer applied to
the gathered snippets alone, and every gathered snippet stems from a
search result whose document passed the access check for the given
context - so content of an inaccessible document never reaches
composition. -/
theorem c2_filter_before_compose (query : String)
    (pids cids : List String) (role : String) (max_results : Nat)
    (search_results : List SearchResult) (lookup : String → Option PlannerMeta) :
    (process_query query pids cids role max_results search_results lookup).answer
      = compose_answer query
          (process_query query pids cids role max_results search_results lookup).snippets
    ∧ ∀ s ∈ (process_query query pids cids role max_results search_results lookup).snippets,
        ∃ r ∈ search_results,
          planner_check_document_access (lookup r.doc_id) pids cids role = true
          ∧ s = fetch_snippets lookup r.doc_id r.chunk_index r.text := by
  refine ⟨rfl, ?_⟩
  intro s hs
  have h := gather_snippets_accessible lookup pids cids role max_results search_results [] s hs
  rcases h with h | h
  · exact absurd h (List.not_mem_nil s)
  · exact h

/-- The metadata store of the C2 scenario: document a in proj-1, document b
in proj-2. -/
def c2Lookup : String → Option PlannerMeta := fun doc_id =>
  if doc_id == "a" then
    some { title := "Doc A", uri := "gs://a", project_id := some "proj-1" }
  else if doc_id == "b" then
    some { title := "Doc B", uri := "gs://b", project_id := some "proj-2" }
  else none

/-- The search hits of the C2 scenario. -/
def c2Results : List SearchResult :=
  [{ doc_id := "a", chunk_index := 0, text := "alpha" },
   { doc_id := "b", chunk_index := 0, text := "beta" }]

/-- Witness for C2: the spec scenario - a user with project_ids [proj-1]
querying over candidates a (proj-1) and b (proj-2).  The answer is
composed from the gathered snippets, and the snippet of document a stems
from an access-checked search result. -/
theorem c2_filter_before_compose_witness :
    (process_query "q" ["proj-1"] [] "end_user" 10 c2Results c2Lookup).answer
      = compose_answer "q"
          (process_query "q" ["proj-1"] [] "end_user" 10 c2Results c2Lookup).snippets
    ∧ ∃ r ∈ c2Results,
        planner_check_document_access (c2Lookup r.doc_id) ["proj-1"] [] "end_user" = true
        ∧ fetch_snippets c2Lookup "a" 0 "alpha"
            = fetch_snippets c2Lookup r.doc_id r.chunk_index r.text :=
  ⟨(c2_filter_before_compose "q" ["proj-1"] [] "end_user" 10 c2Results c2Lookup).1,
   (c2_filter_before_compose "q" ["proj-1"] [] "end_user" 10 c2Results c2Lookup).2
     (fetch_snippets c2Lookup "a" 0 "alpha") (by decide)⟩

/-- DocumentStatus enum from packages/shared/schemas/document.py. -/
inductive DocumentStatus
  | uploaded
  | request_access
  | access_requested
  | access_granted
  | awaiting_approval
  | approved
  | processing_requested
  | processing
  | processed
  | quarantined
  | failed
deriving DecidableEq, Repr

/-- Modelled from the spec: AccessRequestStatus
(packages/shared/schemas/admin.py as imported by services/api/admin/app.py
is not present under src/); the spec gives the request lifecycle
pending -> approved | denied, matching the PENDING, APPROVED and DENIED
members the handlers reference. -/
inductive ARStatus
  | pending
  | approved
  | denied
deriving DecidableEq, Repr

/-- A DocumentAccessRequest record as constructed and updated by the admin
handlers (the pydantic schema itself is not under src/; the fields are
those the handlers set and read).  Timestamps are elided. -/
structure AccessReq where
  id : String
  doc_id : String
  owner_email : String
  requester_email : String
  req_project_id : String
  req_client_id : String
  arstatus : ARStatus
  bulk_request_id : Option String := none
  resolution_notes : String := ""
  share_with_team : Bool := false
deriving DecidableEq, Repr

/-- A document record in the admin documents collection, with the fields
the access-request workflow touches.  Team-access and timestamp fields
updated through external services are elided. -/
structure DocRec where
  id : String
  title : String
  dstatus : DocumentStatus
  access_granted : Bool
  project_id : Option String := none
  client_id : Option String := none
  visibility : String := "project"
  responsible_party : Option String := none
  owner : Option String := none
  bulk_request_id : Option String := none
deriving DecidableEq, Repr

/-- Modelled from the spec: BulkAccessRequest (schema not under src/).  The
creation handler sets total_documents and pending_count to the number of
requested documents; the approved and denied counters start at the spec
invariant value 0. -/
structure BulkReq where
  id : String
  requester_email : String
  bulk_project_id : String
  bulk_client_id : String
  total_documents : Int
  pending_count : Int
  approved_count : Int
  denied_count : Int
deriving DecidableEq, Repr

/-- The Firestore collections the access-request workflow reads and
writes. -/
structure AdminState where
  documents : List DocRec
  access_requests : List AccessReq
  bulk_requests : List BulkReq
deriving DecidableEq, Repr

/-- Modelled from the spec: the caller identity dict produced by the admin
service's authentication dependency (the auth module version imported by
services/api/admin/app.py, with get_user_oauth_credentials, is not under
src/).  The handlers read user["user"] (the verified email) and
user.get("roles", []). -/
structure Caller where
  user : String
  roles : List String
deriving DecidableEq, Repr

/-- Lookup in the documents collection. -/
def findDoc (st : AdminState) (doc_id : String) : Option DocRec :=
  st.documents.find? (fun d => d.id == doc_id)

/-- Lookup in the access_requests collection. -/
def findReq (st : AdminState) (request_id : String) : Option AccessReq :=
  st.access_requests.find? (fun r => r.id == request_id)

/-- Lookup in the bulk_access_requests collection. -/
def findBulk (st : AdminState) (bulk_id : String) : Option BulkReq :=
  st.bulk_requests.find? (fun b => b.id == bulk_id)

/-- Firestore document(id).update: rewrite the record with the matching id
(the handlers call it only after establishing existence; on a missing
record Firestore raises, which the handlers surface as a 500). -/
def updDoc (st : AdminState) (doc_id : String) (f : DocRec → DocRec) : AdminState :=
  { st with documents := st.documents.map (fun d => if d.id == doc_id then f d else d) }

/-- Update of one access request, as updDoc. -/
def updReq (st : AdminState) (request_id : String) (f : AccessReq → AccessReq) : AdminState :=
  { st with access_requests :=
      st.access_requests.map (fun r => if r.id == request_id then f r else r) }

/-- Update of one bulk request, as updDoc. -/
def updBulk (st : AdminState) (bulk_id : String) (f : BulkReq → BulkReq) : AdminState :=
  { st with bulk_requests :=
      st.bulk_requests.map (fun b => if b.id == bulk_id then f b else b) }

/-- Firestore document(id).set for an access request: replace the record
with that id, or append it. -/
def setReq (st : AdminState) (r : AccessReq) : AdminState :=
  if st.access_requests.any (fun x => x.id == r.id) then
    { st with access_requests :=
        st.access_requests.map (fun x => if x.id == r.id then r else x) }
  else
    { st with access_requests := st.access_requests ++ [r] }

/-- Firestore document(id).set for a bulk request. -/
def setBulk (st : AdminState) (b : BulkReq) : AdminState :=
  if st.bulk_requests.any (fun x => x.id == b.id) then
    { st with bulk_requests := st.bulk_requests.map (fun x => if x.id == b.id then b else x) }
  else
    { st with bulk_requests := st.bulk_requests ++ [b] }

/-- The request update dict of the approve handler. -/
def approveReqUpd (notes : String) (swt : Bool) (r : AccessReq) : AccessReq :=
  { r with arstatus := .approved, resolution_notes := notes, share_with_team := swt }

/-- The document update dict of the approve handler. -/
def approveDocUpd (d : DocRec) : DocRec :=
  { d with dstatus := .access_granted, access_granted := true }

/-- The bulk counter update of the approve handler (atomic increments). -/
def approveBulkUpd (b : BulkReq) : BulkReq :=
  { b with approved_count := b.approved_count + 1, pending_count := b.pending_count - 1 }

/-- The request update dict of the deny handler. -/
def denyReqUpd (notes : String) (r : AccessReq) : AccessReq :=
  { r with arstatus := .denied, resolution_notes := notes }

/-- The document update dict of the deny handler. -/
def denyDocUpd (d : DocRec) : DocRec :=
  { d with dstatus := .quarantined, access_granted := false }

/-- The bulk counter update of the deny handler (atomic increments). -/
def denyBulkUpd (b : BulkReq) : BulkReq :=
  { b with denied_count := b.denied_count + 1, pending_count := b.pending_count - 1 }

/-- approve_access_request (services/api/admin/app.py lines 1581-1767).
The handler: 404 when the request id is unknown; 403 unless the caller is
the owner or carries the admin role; then - with no guard on the current
request status - it marks the request approved, marks the document
ACCESS_GRANTED with access_granted true, and, when the request belongs to
a bulk request, increments approved_count and decrements pending_count.
A missing document or bulk record makes the Firestore update raise, which
the handler turns into a 500 after the earlier writes are already
committed; the pair returned here is the resulting store plus the HTTP
outcome.  Team-access side effects (Drive download to GCS) are elided. -/
def approve_access_request (caller : Caller) (request_id : String)
    (notes : String) (share_with_team : Bool) (st : AdminState) :
    AdminState × Except HError String :=
  match findReq st request_id with
  | none => (st, .error { code := 404, detail := "Access request " ++ request_id ++ " not found" })
  | some req =>
    if caller.user != req.owner_email && !(caller.roles.contains "admin") then
      (st, .error { code := 403, detail := "Only the document owner or admin can approve this request" })
    else
      let st1 := updReq st request_id (approveReqUpd notes share_with_team)
      match findDoc st1 req.doc_id with
      | none => (st1, .error { code := 500, detail := "Failed to approve access request" })
      | some _ =>
        let st2 := updDoc st1 req.doc_id approveDocUpd
        match req.bulk_request_id with
        | none => (st2, .ok req.doc_id)
        | some bulk_id =>
          match findBulk st2 bulk_id with
          | none => (st2, .error { code := 500, detail := "Failed to approve access request" })
          | some _ =>
            (updBulk st2 bulk_id approveBulkUpd, .ok req.doc_id)

/-- deny_access_request (services/api/admin/app.py lines 1769-1843):
as approve_access_request, but the request becomes denied, the document
becomes QUARANTINED with access_granted false, and denied_count is
incremented in place of approved_count. -/
def deny_access_request (caller : Caller) (request_id : String)
    (notes : String) (st : AdminState) : AdminState × Except HError String :=
  match findReq st request_id with
  | none => (st, .error { code := 404, detail := "Access request " ++ request_id ++ " not found" })
  | some req =>
    if caller.user != req.owner_email && !(caller.roles.contains "admin") then
      (st, .error { code := 403, detail := "Only the document owner or admin can deny this request" })
    else
      let st1 := updReq st request_id (denyReqUpd notes)
      match findDoc st1 req.doc_id with
      | none => (st1, .error { code := 500, detail := "Failed to deny access request" })
      | some _ =>
        let st2 := updDoc st1 req.doc_id denyDocUpd
        match req.bulk_request_id with
        | none => (st2, .ok req.doc_id)
        | some bulk_id =>
          match findBulk st2 bulk_id with
          | none => (st2, .error { code := 500, detail := "Failed to deny access request" })
          | some _ =>
            (updBulk st2 bulk_id denyBulkUpd, .ok req.doc_id)

/-- Python `a or b` over optional strings with falsy None and "": the
owner of a document is responsible_party or owner, skipping empty
values. -/
def truthyStr : Option String → Option String
  | none => none
  | some s => if s == "" then none else some s

/-- doc_data.get("responsible_party") or doc_data.get("owner") in
bulk_request_owner_access. -/
def ownerOf (d : DocRec) : Option String :=
  match truthyStr d.responsible_party with
  | some s => some s
  | none => truthyStr d.owner

/-- The id of an individual access request created by the bulk handler:
access-req-{timestamp}-{doc_id[:8]}. -/
def reqIdFor (ts doc_id : String) : String :=
  "access-req-" ++ ts ++ "-" ++ doc_id.take 8

/-- The per-document loop of bulk_request_owner_access (lines 1460-1517):
missing documents and documents without an owner are skipped; otherwise an
individual pending request tied to the bulk id is stored and the document
is marked ACCESS_REQUESTED. -/
def create_bulk_requests (ts bulk_id project_id client_id requester : String) :
    List String → AdminState → AdminState
  | [], st => st
  | doc_id :: rest, st =>
    match findDoc st doc_id with
    | none => create_bulk_requests ts bulk_id project_id client_id requester rest st
    | some d =>
      match ownerOf d with
      | none => create_bulk_requests ts bulk_id project_id client_id requester rest st
      | some owner =>
        let st1 := setReq st
          { id := reqIdFor ts doc_id, doc_id := doc_id, owner_email := owner,
            requester_email := requester, req_project_id := project_id,
            req_client_id := client_id, arstatus := .pending,
            bulk_request_id := some bulk_id }
        let st2 := updDoc st1 doc_id (fun dd =>
          { dd with dstatus := .access_requested, bulk_request_id := some bulk_id })
        create_bulk_requests ts bulk_id project_id client_id requester rest st2

/-- bulk_request_owner_access (services/api/admin/app.py lines 1416-1537):
an empty doc_ids list is a 400; otherwise a bulk record is stored with
total_documents = pending_count = len(doc_ids) and zero approved and
denied counts, then the individual requests are fanned out. -/
def bulk_request_owner_access (caller : Caller) (ts : String) (doc_ids : List String)
    (project_id client_id : String) (st : AdminState) :
    AdminState × Except HError String :=
  if doc_ids.isEmpty then
    (st, .error { code := 400, detail := "doc_ids array is required" })
  else
    let bulk_id := "bulk-req-" ++ ts
    let bulk : BulkReq :=
      { id := bulk_id, requester_email := caller.user,
        bulk_project_id := project_id, bulk_client_id := client_id,
        total_documents := (doc_ids.length : Int),
        pending_count := (doc_ids.length : Int),
        approved_count := 0, denied_count := 0 }
    let st1 := setBulk st bulk
    (create_bulk_requests ts bulk_id project_id client_id caller.user doc_ids st1,
     .ok bulk_id)

/-- The dict view of an admin document record, as the chat layer passes
documents to filter_documents_by_access. -/
def DocRec.toDict (d : DocRec) : DocDict :=
  { doc_id := d.id, project_id := d.project_id, client_id := d.client_id,
    visibility := some d.visibility }

/-- find? after an id-keyed update: looking up the updated key finds the
updated record. -/
theorem find?_id_map_update {α : Type} (idOf : α → String) (f : α → α)
    (hf : ∀ x, idOf (f x) = idOf x) (key : String) :
    ∀ l : List α,
      (l.map (fun x => if idOf x == key then f x else x)).find? (fun x => idOf x == key)
        = (l.find? (fun x => idOf x == key)).map f := by
  intro l
  induction l with
  | nil => rfl
  | cons a rest ih =>
    by_cases h : (idOf a == key) = true
    · rw [List.map_cons, if_pos h]
      rw [List.find?_cons_of_pos]
      · rw [List.find?_cons_of_pos]
        · rfl
        · exact h
      · show (idOf (f a) == key) = true
        rw [hf a]; exact h
    · rw [List.map_cons, if_neg h]
      rw [List.find?_cons_of_neg]
      · rw [List.find?_cons_of_neg]
        · exact ih
        · exact h
      · exact h

/-- Looking up the updated request id after updReq yields the mapped
record. -/
theorem findReq_updReq_self (st : AdminState) (rid : String) (f : AccessReq → AccessReq)
    (hf : ∀ r, (f r).id = r.id) :
    findReq (updReq st rid f) rid = (findReq st rid).map f := by
  simpa [findReq, updReq] using
    find?_id_map_update (fun r : AccessReq => r.id) f hf rid st.access_requests

/-- Looking up the updated document id after updDoc yields the mapped
record. -/
theorem findDoc_updDoc_self (st : AdminState) (doc_id : String) (f : DocRec → DocRec)
    (hf : ∀ d, (f d).id = d.id) :
    findDoc (updDoc st doc_id f) doc_id = (findDoc st doc_id).map f := by
  simpa [findDoc, updDoc] using
    find?_id_map_update (fun d : DocRec => d.id) f hf doc_id st.documents

/-- Looking up the updated bulk id after updBulk yields the mapped
record. -/
theorem findBulk_updBulk_self (st : AdminState) (bulk_id : String) (f : BulkReq → BulkReq)
    (hf : ∀ b, (f b).id = b.id) :
    findBulk (updBulk st bulk_id f) bulk_id = (findBulk st bulk_id).map f := by
  simpa [findBulk, updBulk] using
    find?_id_map_update (fun b : BulkReq => b.id) f hf bulk_id st.bulk_requests

/-- Document lookups see through request updates. -/
theorem findDoc_updReq (st : AdminState) (rid : String) (f : AccessReq → AccessReq)
    (doc_id : String) : findDoc (updReq st rid f) doc_id = findDoc st doc_id := rfl

/-- Request lookups see through document updates. -/
theorem findReq_updDoc (st : AdminState) (doc_id : String) (f : DocRec → DocRec)
    (rid : String) : findReq (updDoc st doc_id f) rid = findReq st rid := rfl

/-- Request lookups see through bulk updates. -/
theorem findReq_updBulk (st : AdminState) (bulk_id : String) (f : BulkReq → BulkReq)
    (rid : String) : findReq (updBulk st bulk_id f) rid = findReq st rid := rfl

/-- Bulk lookups see through request updates. -/
theorem findBulk_updReq (st : AdminState) (rid : String) (f : AccessReq → AccessReq)
    (bulk_id : String) : findBulk (updReq st rid f) bulk_id = findBulk st bulk_id := rfl

/-- Bulk lookups see through document updates. -/
theorem findBulk_updDoc (st : AdminState) (doc_id : String) (f : DocRec → DocRec)
    (bulk_id : String) : findBulk (updDoc st doc_id f) bulk_id = findBulk st bulk_id := rfl

/-- Document lookups see through bulk updates. -/
theorem findDoc_updBulk (st : AdminState) (bulk_id : String) (f : BulkReq → BulkReq)
    (doc_id : String) : findDoc (updBulk st bulk_id f) doc_id = findDoc st doc_id := rfl

/-- Evaluation of approve_access_request on the authorized happy path with
a linked bulk request: the computation commits the three updates in order
and reports success, regardless of the current status of the request. -/
theorem approve_access_request_eq (caller : Caller) (rid notes : String) (swt : Bool)
    (st : AdminState) (req : AccessReq) (doc : DocRec) (bulk : BulkReq) (bid : String)
    (hreq : findReq st rid = some req)
    (hauth : caller.user = req.owner_email ∨ caller.roles.contains "admin" = true)
    (hdoc : findDoc st req.doc_id = some doc)
    (hbid : req.bulk_request_id = some bid)
    (hbulk : findBulk st bid = some bulk) :
    approve_access_request caller rid notes swt st
      = (updBulk
          (updDoc (updReq st rid (approveReqUpd notes swt)) req.doc_id approveDocUpd)
          bid approveBulkUpd,
         .ok req.doc_id) := by
  have hguard : (caller.user != req.owner_email && !(caller.roles.contains "admin")) = false := by
    rcases hauth with h | h
    · simp [h]
    · rw [h]; simp
  have hdoc1 : findDoc (updReq st rid (approveReqUpd notes swt)) req.doc_id = some doc := by
    rw [findDoc_updReq]; exact hdoc
  have hbulk2 : findBulk
      (updDoc (updReq st rid (approveReqUpd notes swt)) req.doc_id approveDocUpd)
      bid = some bulk := by
    rw [findBulk_updDoc, findBulk_updReq]; exact hbulk
  unfold approve_access_request
  rw [hreq]
  simp only [hguard, Bool.false_eq_true, if_false]
  rw [hdoc1]
  simp only [hbid]
  rw [hbulk2]

/-- Evaluation of deny_access_request on the authorized happy path with a
linked bulk request, regardless of the current status of the request. -/
theorem deny_access_request_eq (caller : Caller) (rid notes : String)
    (st : AdminState) (req : AccessReq) (doc : DocRec) (bulk : BulkReq) (bid : String)
    (hreq : findReq st rid = some req)
    (hauth : caller.user = req.owner_email ∨ caller.roles.contains "admin" = true)
    (hdoc : findDoc st req.doc_id = some doc)
    (hbid : req.bulk_request_id = some bid)
    (hbulk : findBulk st bid = some bulk) :
    deny_access_request caller rid notes st
      = (updBulk
          (updDoc (updReq st rid (denyReqUpd notes)) req.doc_id denyDocUpd)
          bid denyBulkUpd,
         .ok req.doc_id) := by
  have hguard : (caller.user != req.owner_email && !(caller.roles.contains "admin")) = false := by
    rcases hauth with h | h
    · simp [h]
    · rw [h]; simp
  have hdoc1 : findDoc (updReq st rid (denyReqUpd notes)) req.doc_id = some doc := by
    rw [findDoc_updReq]; exact hdoc
  have hbulk2 : findBulk
      (updDoc (updReq st rid (denyReqUpd notes)) req.doc_id denyDocUpd)
      bid = some bulk := by
    rw [findBulk_updDoc, findBulk_updReq]; exact hbulk
  unfold deny_access_request
  rw [hreq]
  simp only [hguard, Bool.false_eq_true, if_false]
  rw [hdoc1]
  simp only [hbid]
  rw [hbulk2]

/-- Evaluation of deny_access_request on the authorized happy path when the
request is not part of a bulk request. -/
theorem deny_access_request_eq_nobulk (caller : Caller) (rid notes : String)
    (st : AdminState) (req : AccessReq) (doc : DocRec)
    (hreq : findReq st rid = some req)
    (hauth : caller.user = req.owner_email ∨ caller.roles.contains "admin" = true)
    (hdoc : findDoc st req.doc_id = some doc)
    (hbid : req.bulk_request_id = none) :
    deny_access_request caller rid notes st
      = (updDoc (updReq st rid (denyReqUpd notes)) req.doc_id denyDocUpd,
         .ok req.doc_id) := by
  have hguard : (caller.user != req.owner_email && !(caller.roles.contains "admin")) = false := by
    rcases hauth with h | h
    · simp [h]
    · rw [h]; simp
  have hdoc1 : findDoc (updReq st rid (denyReqUpd notes)) req.doc_id = some doc := by
    rw [findDoc_updReq]; exact hdoc
  unfold deny_access_request
  rw [hreq]
  simp only [hguard, Bool.false_eq_true, if_false]
  rw [hdoc1]
  simp only [hbid]

/-- C10: the approve and deny handlers place no guard on the current status
of the stored request.  For any request whose caller check passes, with
the referenced document and the linked bulk record present, and whatever
the current request status (also approved or denied already): approve
reports success, sets the request approved and the document
ACCESS_GRANTED with access_granted true, and applies the bulk increments
again; deny reports success, sets the request denied and the document
QUARANTINED with access_granted false, and applies its increments
again. -/
theorem c10_transitions_unguarded (caller : Caller) (rid notes : String) (swt : Bool)
    (st : AdminState) (req : AccessReq) (doc : DocRec) (bulk : BulkReq) (bid : String)
    (hreq : findReq st rid = some req)
    (hauth : caller.user = req.owner_email ∨ caller.roles.contains "admin" = true)
    (hdoc : findDoc st req.doc_id = some doc)
    (hbid : req.bulk_request_id = some bid)
    (hbulk : findBulk st bid = some bulk) :
    (approve_access_request caller rid notes swt st).2 = .ok req.doc_id
    ∧ findReq (approve_access_request caller rid notes swt st).1 rid
        = some { req with arstatus := .approved, resolution_notes := notes,
                          share_with_team := swt }
    ∧ findDoc (approve_access_request caller rid notes swt st).1 req.doc_id
        = some { doc with dstatus := .access_granted, access_granted := true }
    ∧ findBulk (approve_access_request caller rid notes swt st).1 bid
        = some { bulk with approved_count := bulk.approved_count + 1,
                           pending_count := bulk.pending_count - 1 }
    ∧ (deny_access_request caller rid notes st).2 = .ok req.doc_id
    ∧ findReq (deny_access_request caller rid notes st).1 rid
        = some { req with arstatus := .denied, resolution_notes := notes }
    ∧ findDoc (deny_access_request caller rid notes st).1 req.doc_id
        = some { doc with dstatus := .quarantined, access_granted := false }
    ∧ findBulk (deny_access_request caller rid notes st).1 bid
        = some { bulk with denied_count := bulk.denied_count + 1,
                           pending_count := bulk.pending_count - 1 } := by
  have ha := approve_access_request_eq caller rid notes swt st req doc bulk bid
    hreq hauth hdoc hbid hbulk
  have hd := deny_access_request_eq caller rid notes st req doc bulk bid
    hreq hauth hdoc hbid hbulk
  simp only [ha, hd]
  refine ⟨trivial, ?_, ?_, ?_, trivial, ?_, ?_, ?_⟩
  · rw [findReq_updBulk, findReq_updDoc,
      findReq_updReq_self st rid (approveReqUpd notes swt) (fun r => rfl), hreq]
    rfl
  · rw [findDoc_updBulk, findDoc_updDoc_self _ _ approveDocUpd (fun d => rfl),
      findDoc_updReq, hdoc]
    rfl
  · rw [findBulk_updBulk_self _ _ approveBulkUpd (fun b => rfl),
      findBulk_updDoc, findBulk_updReq, hbulk]
    rfl
  · rw [findReq_updBulk, findReq_updDoc,
      findReq_updReq_self st rid (denyReqUpd notes) (fun r => rfl), hreq]
    rfl
  · rw [findDoc_updBulk, findDoc_updDoc_self _ _ denyDocUpd (fun d => rfl),
      findDoc_updReq, hdoc]
    rfl
  · rw [findBulk_updBulk_self _ _ denyBulkUpd (fun b => rfl),
      findBulk_updDoc, findBulk_updReq, hbulk]
    rfl

/-- The store of the C10 scenario: document d1, an already-approved request
r1 for it linked to bulk request B1 whose counters reflect that first
approval. -/
def stC10 : AdminState :=
  { documents := [{ id := "d1", title := "D", dstatus := .access_granted, access_granted := true,
                    project_id := some "P1", client_id := some "C1",
                    responsible_party := some "o@x" }],
    access_requests := [{ id := "r1", doc_id := "d1", owner_email := "o@x",
                          requester_email := "q@x", req_project_id := "P1",
                          req_client_id := "C1", arstatus := .approved,
                          bulk_request_id := some "B1" }],
    bulk_requests := [{ id := "B1", requester_email := "q@x", bulk_project_id := "P1",
                        bulk_client_id := "C1", total_documents := 1, pending_count := 0,
                        approved_count := 1, denied_count := 0 }] }

/-- Witness for C10: re-approving the already-approved request r1 succeeds
and applies the bulk increments a second time, driving pending_count to
minus one. -/
theorem c10_transitions_unguarded_witness :
    (approve_access_request { user := "o@x", roles := [] } "r1" "again" true stC10).2
      = .ok "d1"
    ∧ findBulk (approve_access_request { user := "o@x", roles := [] } "r1" "again" true stC10).1
        "B1"
      = some { id := "B1", requester_email := "q@x", bulk_project_id := "P1",
               bulk_client_id := "C1", total_documents := 1, pending_count := -1,
               approved_count := 2, denied_count := 0 } := by
  have h := c10_transitions_unguarded { user := "o@x", roles := [] } "r1" "again" true stC10
    { id := "r1", doc_id := "d1", owner_email := "o@x", requester_email := "q@x",
      req_project_id := "P1", req_client_id := "C1", arstatus := .approved,
      bulk_request_id := some "B1" }
    { id := "d1", title := "D", dstatus := .access_granted, access_granted := true,
      project_id := some "P1", client_id := some "C1", responsible_party := some "o@x" }
    { id := "B1", requester_email := "q@x", bulk_project_id := "P1", bulk_client_id := "C1",
      total_documents := 1, pending_count := 0, approved_count := 1, denied_count := 0 }
    "B1" rfl (Or.inl rfl) rfl rfl rfl
  exact ⟨h.1, h.2.2.2.1⟩

/-- C7: a transition of an existing access request is rejected with an
explicit 403 error - the state returned unchanged - for every caller who
is neither the owner of the document nor a holder of the admin role, and a
successful transition implies the caller was the owner or an admin. -/
theorem c7_transition_authorization (caller : Caller) (rid notes : String) (swt : Bool)
    (st : AdminState) (req : AccessReq)
    (hreq : findReq st rid = some req) :
    ((caller.user ≠ req.owner_email ∧ caller.roles.contains "admin" = false) →
       approve_access_request caller rid notes swt st
         = (st, .error ⟨403, "Only the document owner or admin can approve this request"⟩)
       ∧ deny_access_request caller rid notes st
         = (st, .error ⟨403, "Only the document owner or admin can deny this request"⟩))
    ∧ (∀ out, (approve_access_request caller rid notes swt st).2 = .ok out →
         caller.user = req.owner_email ∨ caller.roles.contains "admin" = true)
    ∧ (∀ out, (deny_access_request caller rid notes st).2 = .ok out →
         caller.user = req.owner_email ∨ caller.roles.contains "admin" = true) := by
  have hrejA : caller.user ≠ req.owner_email → caller.roles.contains "admin" = false →
      approve_access_request caller rid notes swt st
        = (st, .error ⟨403, "Only the document owner or admin can approve this request"⟩) := by
    intro hne hrole
    have hguard : (caller.user != req.owner_email && !(caller.roles.contains "admin")) = true := by
      have hnm : "admin" ∉ caller.roles := by simpa using hrole
      simp [hne, hnm]
    unfold approve_access_request
    rw [hreq]
    simp only [hguard, if_true]
  have hrejD : caller.user ≠ req.owner_email → caller.roles.contains "admin" = false →
      deny_access_request caller rid notes st
        = (st, .error ⟨403, "Only the document owner or admin can deny this request"⟩) := by
    intro hne hrole
    have hguard : (caller.user != req.owner_email && !(caller.roles.contains "admin")) = true := by
      have hnm : "admin" ∉ caller.roles := by simpa using hrole
      simp [hne, hnm]
    unfold deny_access_request
    rw [hreq]
    simp only [hguard, if_true]
  refine ⟨fun h => ⟨hrejA h.1 h.2, hrejD h.1 h.2⟩, ?_, ?_⟩
  · intro out hok
    by_cases hu : caller.user = req.owner_email
    · exact Or.inl hu
    · by_cases hr : caller.roles.contains "admin" = true
      · exact Or.inr hr
      · have hrole : caller.roles.contains "admin" = false := by
          simpa using hr
        rw [hrejA hu hrole] at hok
        simp at hok
  · intro out hok
    by_cases hu : caller.user = req.owner_email
    · exact Or.inl hu
    · by_cases hr : caller.roles.contains "admin" = true
      · exact Or.inr hr
      · have hrole : caller.roles.contains "admin" = false := by
          simpa using hr
        rw [hrejD hu hrole] at hok
        simp at hok

/-- The store of the C7 scenario: a pending request r1 owned by o@x. -/
def stC7 : AdminState :=
  { documents := [{ id := "d1", title := "D", dstatus := .access_requested,
                    access_granted := false, project_id := some "P1", client_id := some "C1",
                    responsible_party := some "o@x" }],
    access_requests := [{ id := "r1", doc_id := "d1", owner_email := "o@x",
                          requester_email := "q@x", req_project_id := "P1",
                          req_client_id := "C1", arstatus := .pending }],
    bulk_requests := [] }

/-- Witness for C7: a caller who is neither owner nor admin is rejected
with a 403 by both transitions and the store is unchanged. -/
theorem c7_transition_authorization_witness :
    approve_access_request { user := "evil@x", roles := [] } "r1" "" true stC7
      = (stC7, .error ⟨403, "Only the document owner or admin can approve this request"⟩)
    ∧ deny_access_request { user := "evil@x", roles := [] } "r1" "" stC7
      = (stC7, .error ⟨403, "Only the document owner or admin can deny this request"⟩) :=
  (c7_transition_authorization { user := "evil@x", roles := [] } "r1" "" true stC7
    { id := "r1", doc_id := "d1", owner_email := "o@x", requester_email := "q@x",
      req_project_id := "P1", req_client_id := "C1", arstatus := .pending }
    rfl).1 ⟨by decide, rfl⟩

/-- C5 (amended): an authorized deny marks the document quarantined
(status QUARANTINED, access_granted false), but filter_documents_by_access
never consults document status: a quarantined document whose project or
client id matches the context is still returned by the filter. -/
theorem c5_deny_quarantines_filter_ignores_status (caller : Caller) (rid notes : String)
    (st : AdminState) (req : AccessReq) (doc : DocRec) (ctx : UserContext)
    (hreq : findReq st rid = some req)
    (hauth : caller.user = req.owner_email ∨ caller.roles.contains "admin" = true)
    (hdoc : findDoc st req.doc_id = some doc)
    (hbid : req.bulk_request_id = none)
    (hrole : ctx.role ≠ UserRole.super_admin)
    (hmatch : (pyMem doc.project_id ctx.project_ids
               || pyMem doc.client_id ctx.client_ids) = true) :
    findDoc (deny_access_request caller rid notes st).1 req.doc_id
      = some { doc with dstatus := .quarantined, access_granted := false }
    ∧ filter_documents_core ctx
        [DocRec.toDict { doc with dstatus := .quarantined, access_granted := false }]
      = [DocRec.toDict { doc with dstatus := .quarantined, access_granted := false }] := by
  constructor
  · rw [deny_access_request_eq_nobulk caller rid notes st req doc hreq hauth hdoc hbid]
    show findDoc (updDoc (updReq st rid (denyReqUpd notes)) req.doc_id denyDocUpd)
        req.doc_id = some { doc with dstatus := .quarantined, access_granted := false }
    rw [findDoc_updDoc_self _ _ denyDocUpd (fun d => rfl), findDoc_updReq, hdoc]
    rfl
  · have hb : (ctx.role == UserRole.super_admin) = false := by
      simpa using hrole
    cases hp : pyMem doc.project_id ctx.project_ids with
    | true =>
      simp [filter_documents_core, hb, filter_documents_loop, DocRec.toDict, hp]
    | false =>
      have hc : pyMem doc.client_id ctx.client_ids = true := by
        rw [hp] at hmatch
        simpa using hmatch
      simp [filter_documents_core, hb, filter_documents_loop, DocRec.toDict, hp, hc]

/-- The store of the C5 scenario: document d1 in project P1 with a pending
request r1 owned by o@x. -/
def stC5 : AdminState :=
  { documents := [{ id := "d1", title := "D", dstatus := .access_requested,
                    access_granted := false, project_id := some "P1", client_id := some "C1",
                    responsible_party := some "o@x" }],
    access_requests := [{ id := "r1", doc_id := "d1", owner_email := "o@x",
                          requester_email := "q@x", req_project_id := "P1",
                          req_client_id := "C1", arstatus := .pending }],
    bulk_requests := [] }

/-- Witness for C5: denying r1 quarantines d1, yet the filter run for an
end user with project_ids [P1] still returns it. -/
theorem c5_deny_quarantines_filter_ignores_status_witness :
    findDoc (deny_access_request { user := "o@x", roles := [] } "r1" "no" stC5).1 "d1"
      = some { id := "d1", title := "D", dstatus := DocumentStatus.quarantined,
               access_granted := false, project_id := some "P1", client_id := some "C1",
               responsible_party := some "o@x" }
    ∧ filter_documents_core
        { email := "u@x", role := .end_user, permissions := [],
          client_ids := [], project_ids := [PyVal.str "P1"] }
        [DocRec.toDict { id := "d1", title := "D", dstatus := DocumentStatus.quarantined,
                         access_granted := false, project_id := some "P1",
                         client_id := some "C1", responsible_party := some "o@x" }]
      = [DocRec.toDict { id := "d1", title := "D", dstatus := DocumentStatus.quarantined,
                         access_granted := false, project_id := some "P1",
                         client_id := some "C1", responsible_party := some "o@x" }] :=
  c5_deny_quarantines_filter_ignores_status { user := "o@x", roles := [] } "r1" "no" stC5
    { id := "r1", doc_id := "d1", owner_email := "o@x", requester_email := "q@x",
      req_project_id := "P1", req_client_id := "C1", arstatus := .pending }
    { id := "d1", title := "D", dstatus := .access_requested, access_granted := false,
      project_id := some "P1", client_id := some "C1", responsible_party := some "o@x" }
    { email := "u@x", role := .end_user, permissions := [],
      client_ids := [], project_ids := [PyVal.str "P1"] }
    rfl (Or.inl rfl) rfl rfl (by decide) (by decide)

/-- Counterexample to C5 as stated: after the deny transition of r1 the
document d1 is quarantined, and the very next filter_documents_by_access
call for an end user whose project_ids contain P1 includes d1 in its
result - the denied state does not exclude the document from subsequent
listings. -/
theorem c5_denied_document_still_listed :
    (findDoc (deny_access_request { user := "o@x", roles := [] } "r1" "denied" stC5).1 "d1").map
        (fun d => (d.dstatus,
          filter_documents_core
            { email := "u@x", role := .end_user, permissions := [],
              client_ids := [], project_ids := [PyVal.str "P1"] } [d.toDict]))
      = some (DocumentStatus.quarantined,
          [{ doc_id := "d1", project_id := some "P1", client_id := some "C1",
             visibility := some "project" }]) := by
  decide

/-- The bulk counter consistency equation of the specification:
pending + approved + denied = total. -/
def bulk_counters_consistent (b : BulkReq) : Prop :=
  b.pending_count + b.approved_count + b.denied_count = b.total_documents

/-- setReq leaves the bulk_requests collection untouched. -/
theorem bulk_requests_setReq (st : AdminState) (r : AccessReq) :
    (setReq st r).bulk_requests = st.bulk_requests := by
  simp only [setReq]
  split <;> rfl

/-- updDoc leaves the bulk_requests collection untouched. -/
theorem bulk_requests_updDoc (st : AdminState) (k : String) (f : DocRec → DocRec) :
    (updDoc st k f).bulk_requests = st.bulk_requests := rfl

/-- The fan-out loop of the bulk handler never touches the bulk_requests
collection. -/
theorem create_bulk_requests_bulk_requests (ts bid p c r : String) :
    ∀ (ids : List String) (st : AdminState),
      (create_bulk_requests ts bid p c r ids st).bulk_requests = st.bulk_requests := by
  intro ids
  induction ids with
  | nil => intro st; rfl
  | cons i rest ih =>
    intro st
    simp only [create_bulk_requests]
    split
    · exact ih st
    · split
      · exact ih st
      · rw [ih, bulk_requests_updDoc, bulk_requests_setReq]

/-- Membership in the bulk collection after setBulk: an old record or the
new one. -/
theorem mem_of_mem_setBulk (st : AdminState) (nb b : BulkReq)
    (hb : b ∈ (setBulk st nb).bulk_requests) : b ∈ st.bulk_requests ∨ b = nb := by
  by_cases h : (st.bulk_requests.any (fun x => x.id == nb.id)) = true
  · have hb2 : b ∈ st.bulk_requests.map (fun x => if x.id == nb.id then nb else x) := by
      simpa [setBulk, h] using hb
    rcases List.mem_map.mp hb2 with ⟨a, ha, hba⟩
    by_cases hid : (a.id == nb.id) = true
    · right
      rw [if_pos hid] at hba
      exact hba.symm
    · left
      rw [if_neg hid] at hba
      exact hba ▸ ha
  · have hb2 : b ∈ st.bulk_requests ++ [nb] := by
      simpa [setBulk, h] using hb
    rcases List.mem_append.mp hb2 with h2 | h2
    · exact Or.inl h2
    · right
      simpa using h2

/-- Membership in an id-keyed map update: every member is an old record or
the image of an old record. -/
theorem mem_map_update {α : Type} (l : List α) (p : α → Bool) (f : α → α) (b : α)
    (hb : b ∈ l.map (fun x => if p x then f x else x)) :
    ∃ a, a ∈ l ∧ (b = a ∨ b = f a) := by
  rcases List.mem_map.mp hb with ⟨a, ha, hba⟩
  by_cases h : p a = true
  · exact ⟨a, ha, Or.inr (by rw [← hba, if_pos h])⟩
  · exact ⟨a, ha, Or.inl (by rw [← hba, if_neg h])⟩

/-- The bulk collection after approve_access_request: unchanged, or one
record updated with the approve increments. -/
theorem approve_bulk_requests_cases (caller : Caller) (rid notes : String) (swt : Bool)
    (st : AdminState) :
    (approve_access_request caller rid notes swt st).1.bulk_requests = st.bulk_requests
    ∨ ∃ bid, (approve_access_request caller rid notes swt st).1.bulk_requests
        = st.bulk_requests.map (fun x => if x.id == bid then approveBulkUpd x else x) := by
  unfold approve_access_request
  dsimp only
  split
  · exact Or.inl rfl
  · split
    · exact Or.inl rfl
    · split
      · exact Or.inl rfl
      · split
        · exact Or.inl rfl
        · rename_i bid hbid
          split
          · exact Or.inl rfl
          · exact Or.inr ⟨bid, rfl⟩

/-- The bulk collection after deny_access_request: unchanged, or one record
updated with the deny increments. -/
theorem deny_bulk_requests_cases (caller : Caller) (rid notes : String)
    (st : AdminState) :
    (deny_access_request caller rid notes st).1.bulk_requests = st.bulk_requests
    ∨ ∃ bid, (deny_access_request caller rid notes st).1.bulk_requests
        = st.bulk_requests.map (fun x => if x.id == bid then denyBulkUpd x else x) := by
  unfold deny_access_request
  dsimp only
  split
  · exact Or.inl rfl
  · split
    · exact Or.inl rfl
    · split
      · exact Or.inl rfl
      · split
        · exact Or.inl rfl
        · rename_i bid hbid
          split
          · exact Or.inl rfl
          · exact Or.inr ⟨bid, rfl⟩

/-- C6 (amended): every bulk record satisfies
pending + approved + denied = total right after creation, and the equation
is preserved by every approve and deny call (each moves one unit between
pending and approved or denied).  The non-negativity of the counters is
not preserved when a member request is transitioned more than once. -/
theorem c6_counter_sum_invariant :
    (∀ (caller : Caller) (ts : String) (doc_ids : List String) (pid cid : String)
       (st : AdminState),
       (∀ b ∈ st.bulk_requests, bulk_counters_consistent b) →
       ∀ b ∈ (bulk_request_owner_access caller ts doc_ids pid cid st).1.bulk_requests,
         bulk_counters_consistent b)
    ∧ (∀ (caller : Caller) (rid notes : String) (swt : Bool) (st : AdminState),
       (∀ b ∈ st.bulk_requests, bulk_counters_consistent b) →
       ∀ b ∈ (approve_access_request caller rid notes swt st).1.bulk_requests,
         bulk_counters_consistent b)
    ∧ (∀ (caller : Caller) (rid notes : String) (st : AdminState),
       (∀ b ∈ st.bulk_requests, bulk_counters_consistent b) →
       ∀ b ∈ (deny_access_request caller rid notes st).1.bulk_requests,
         bulk_counters_consistent b) := by
  refine ⟨?_, ?_, ?_⟩
  · intro caller ts doc_ids pid cid st hinv b hb
    by_cases hempty : doc_ids.isEmpty
    · simp only [bulk_request_owner_access, if_pos hempty] at hb
      exact hinv b hb
    · simp only [bulk_request_owner_access, if_neg hempty] at hb
      rw [create_bulk_requests_bulk_requests] at hb
      rcases mem_of_mem_setBulk _ _ _ hb with h | h
      · exact hinv b h
      · rw [h]
        show (doc_ids.length : Int) + 0 + 0 = (doc_ids.length : Int)
        omega
  · intro caller rid notes swt st hinv b hb
    rcases approve_bulk_requests_cases caller rid notes swt st with h | ⟨bid, h⟩
    · rw [h] at hb
      exact hinv b hb
    · rw [h] at hb
      rcases mem_map_update _ _ _ _ hb with ⟨a, ha, hba | hba⟩
      · rw [hba]
        exact hinv a ha
      · rw [hba]
        have hc := hinv a ha
        unfold bulk_counters_consistent at hc ⊢
        show a.pending_count - 1 + (a.approved_count + 1) + a.denied_count = a.total_documents
        omega
  · intro caller rid notes st hinv b hb
    rcases deny_bulk_requests_cases caller rid notes st with h | ⟨bid, h⟩
    · rw [h] at hb
      exact hinv b hb
    · rw [h] at hb
      rcases mem_map_update _ _ _ _ hb with ⟨a, ha, hba | hba⟩
      · rw [hba]
        exact hinv a ha
      · rw [hba]
        have hc := hinv a ha
        unfold bulk_counters_consistent at hc ⊢
        show a.pending_count - 1 + a.approved_count + (a.denied_count + 1) = a.total_documents
        omega

/-- The store of the C6 witness scenario: one consistent bulk record with a
member request already approved once. -/
def stC6W : AdminState :=
  { documents := [{ id := "d1", title := "D", dstatus := .access_granted, access_granted := true,
                    project_id := some "P1", client_id := some "C1",
                    responsible_party := some "o@x" }],
    access_requests := [{ id := "r1", doc_id := "d1", owner_email := "o@x",
                          requester_email := "q@x", req_project_id := "P1",
                          req_client_id := "C1", arstatus := .approved,
                          bulk_request_id := some "B1" }],
    bulk_requests := [{ id := "B1", requester_email := "q@x", bulk_project_id := "P1",
                        bulk_client_id := "C1", total_documents := 1, pending_count := 0,
                        approved_count := 1, denied_count := 0 }] }

/-- Witness for C6: the sum equation survives a repeated approval even
though pending_count has gone negative. -/
theorem c6_counter_sum_invariant_witness :
    bulk_counters_consistent
      { id := "B1", requester_email := "q@x", bulk_project_id := "P1", bulk_client_id := "C1",
        total_documents := 1, pending_count := -1, approved_count := 2, denied_count := 0 } :=
  c6_counter_sum_invariant.2.1 { user := "o@x", roles := [] } "r1" "n" true stC6W
    (by
      intro b hb
      have hbeq : b =
          { id := "B1", requester_email := "q@x", bulk_project_id := "P1",
            bulk_client_id := "C1", total_documents := 1, pending_count := 0,
            approved_count := 1, denied_count := 0 } := by
        simpa [stC6W] using hb
      rw [hbeq]
      unfold bulk_counters_consistent
      decide)
    { id := "B1", requester_email := "q@x", bulk_project_id := "P1", bulk_client_id := "C1",
      total_documents := 1, pending_count := -1, approved_count := 2, denied_count := 0 }
    (by decide)

/-- The store of the C6 counterexample: one document with an owner and no
requests yet. -/
def st0C6 : AdminState :=
  { documents := [{ id := "d1", title := "D", dstatus := .uploaded, access_granted := false,
                    project_id := some "P1", client_id := some "C1",
                    responsible_party := some "o@x" }],
    access_requests := [], bulk_requests := [] }

/-- Counterexample to C6 as stated: create a bulk request over one
document, then approve the created member request twice (the transition is
not status-guarded).  After the second approve - an individual approve
transition of a member request - the counters read pending -1, approved 2,
denied 0 against total 1: the sum equation still holds but pending_count
is negative, contradicting the claimed non-negativity. -/
theorem c6_pending_count_negative :
    ((approve_access_request { user := "o@x", roles := [] } "access-req-T1-d1" "" true
        (approve_access_request { user := "o@x", roles := [] } "access-req-T1-d1" "" true
          (bulk_request_owner_access { user := "req@x", roles := [] } "T1" ["d1"] "P1" "C1"
            st0C6).1).1).1.bulk_requests.find? (fun b => b.id == "bulk-req-T1")).map
        (fun b => (b.pending_count, b.approved_count, b.denied_count, b.total_documents))
      = some (-1, 2, 0, 1) := by
  decide

end ProjectAgent
